import Mathlib

/-!
Verification of the kiln-controller core: oven command actions
(`perform_pause_kiln`, `perform_resume_kiln`, `perform_stop_kiln`,
`perform_start_profile`), profile unit handling (`add_temp_units`,
`convert_to_c`, `convert_to_f`, `save_profile`) and observer delivery
(`OvenWatcher.notify_all`, `WebSocketObserver.send`,
`TelegramObserver.send`), shallowly embedded from the Python sources.
Temperatures and times are modelled as exact rationals.
-/

namespace Kiln

/-- The oven run-lifecycle states used by `oven.state` in kiln-controller.py. -/
inductive OvenState where
  | IDLE
  | RUNNING
  | PAUSED
  | ABORTED
deriving DecidableEq, Repr

/-- The observable fields of the oven object that the command actions touch:
the lifecycle state, the actuator (heating element) output, the active
profile (by name) and the accumulated elapsed run time. -/
structure Oven where
  state : OvenState
  heating : Bool
  profile : Option String
  elapsed : ℚ
deriving DecidableEq, Repr

/-- Modelled from the spec: `Oven.abort_run` lives in `oven.py`, which is not
under src/. Spec §4.3 `abort()`: actuator forced off, profile cleared,
elapsed reset, state to IDLE. -/
def Oven.abort_run (_ : Oven) : Oven :=
  { state := .IDLE, heating := false, profile := none, elapsed := 0 }

/-- Modelled from the spec: `Oven.run_profile` lives in `oven.py`, which is
not under src/. Spec §4.3 `start(profile, seek_offset)`: stores the profile,
resets elapsed time to the seek offset and transitions to RUNNING. -/
def Oven.run_profile (o : Oven) (name : String) (startat : ℚ) : Oven :=
  { o with state := .RUNNING, profile := some name, elapsed := startat }

/-- kiln-controller.py `perform_pause_kiln`: if the oven is RUNNING, set its
state to PAUSED and return True; otherwise log a warning and return False. -/
def perform_pause_kiln (o : Oven) : Bool × Oven :=
  if o.state = .RUNNING then (true, { o with state := .PAUSED })
  else (false, o)

/-- kiln-controller.py `perform_resume_kiln`: if the oven is PAUSED, set its
state to RUNNING and return True; otherwise log a warning and return False. -/
def perform_resume_kiln (o : Oven) : Bool × Oven :=
  if o.state = .PAUSED then (true, { o with state := .RUNNING })
  else (false, o)

/-- kiln-controller.py `perform_stop_kiln`: if the oven is RUNNING or PAUSED,
call `oven.abort_run()` and return True; otherwise the kiln is already
stopped and True is returned without touching the oven. -/
def perform_stop_kiln (o : Oven) : Bool × Oven :=
  if o.state = .RUNNING ∨ o.state = .PAUSED then (true, o.abort_run)
  else (true, o)

/-- A loaded profile JSON object as the start path sees it: the "type" field,
the "name" field, the "data" field (a list of (seconds, temperature) pairs
when present and a list, `none` otherwise) and the optional "temp_units"
marker. -/
structure RawProfile where
  type_ : String
  name : String
  data : Option (List (ℚ × ℚ))
  temp_units : Option String
deriving DecidableEq, Repr

/-- Strict monotonicity of the time offsets of consecutive profile points. -/
def strictlyIncreasingTimes : List (ℚ × ℚ) → Bool
  | [] => true
  | [_] => true
  | a :: b :: rest => decide (a.1 < b.1) && strictlyIncreasingTimes (b :: rest)

/-- Modelled from the spec: the `Profile` constructor lives in `oven.py`,
which is not under src/. Spec §4.1 `parse`: fails with `FormatError` if
`type != "profile"`, `data` missing/short (fewer than 2 points), or points
not monotonic in time; otherwise yields the profile points. -/
def Profile.parse (p : RawProfile) : Except String (List (ℚ × ℚ)) :=
  if p.type_ ≠ "profile" then .error "FormatError: type is not profile"
  else
    match p.data with
    | none => .error "FormatError: data missing"
    | some d =>
      if d.length < 2 then .error "FormatError: fewer than 2 points"
      else if ¬ strictlyIncreasingTimes d then .error "FormatError: times not monotonic"
      else .ok d

/-- Errors the start path can raise to its caller. -/
inductive StartErr where
  | valueError (msg : String)
  | runtimeError (msg : String)
deriving DecidableEq, Repr

/-- Result of `perform_start_profile`: the returned-or-raised outcome, the
oven afterwards, and whether `oven.run_profile` was invoked. -/
structure StartOutcome where
  result : Except StartErr Bool
  oven : Oven
  invokedRun : Bool
deriving Repr

/-- kiln-controller.py `perform_start_profile`: returns False untouched if
the oven is not IDLE; raises ValueError on an empty identifier; resolves the
identifier to a profile object (the file-loading branch for `.json` names
and the `find_profile` branch are both modelled by the `lookup` parameter,
with every resolution failure collapsed into `lookup` returning `none`);
rejects objects whose `type` is not "profile" or whose `data` is not a list;
then constructs a `Profile` (whose validation errors are caught and re-raised
as RuntimeError by the surrounding try block) and on success invokes
`oven.run_profile(profile, startat=0)` and returns True. -/
def perform_start_profile (o : Oven) (ident : String)
    (lookup : String → Option RawProfile) : StartOutcome :=
  if o.state ≠ .IDLE then ⟨.ok false, o, false⟩
  else if ident = "" then
    ⟨.error (.valueError "Invalid profile identifier provided for start."), o, false⟩
  else
    match lookup ident with
    | none => ⟨.error (.valueError "Profile not found."), o, false⟩
    | some p =>
      if ¬ (p.type_ = "profile" ∧ p.data.isSome) then
        ⟨.error (.valueError "Invalid profile format."), o, false⟩
      else
        match Profile.parse p with
        | .error _ => ⟨.error (.runtimeError "Failed to start profile."), o, false⟩
        | .ok _ => ⟨.ok true, o.run_profile p.name 0, true⟩

/-- A loaded profile object is malformed in the sense of C5: wrong `type`,
`data` missing, fewer than 2 points, or times not strictly increasing. -/
def malformedProfile (p : RawProfile) : Bool :=
  decide (p.type_ ≠ "profile") ||
    match p.data with
    | none => true
    | some d => decide (d.length < 2) || ! strictlyIncreasingTimes d

/-- A profile object as the storage functions see it: the "name" field, the
"data" field (list of (seconds, temperature) pairs), the optional
"temp_units" marker and the "type" field. -/
structure ProfileObj where
  name : String
  data : List (ℚ × ℚ)
  temp_units : Option String
  type_ : String
deriving DecidableEq, Repr

/-- kiln-controller.py `convert_to_c`: rebuilds the "data" list mapping each
(secs, temp) to (secs, (5/9)*(temp-32)); no other field is touched. -/
def convert_to_c (p : ProfileObj) : ProfileObj :=
  { p with data := p.data.map (fun pt => (pt.1, (5 / 9 : ℚ) * (pt.2 - 32))) }

/-- kiln-controller.py `convert_to_f`: rebuilds the "data" list mapping each
(secs, temp) to (secs, (9/5)*temp+32); no other field is touched. -/
def convert_to_f (p : ProfileObj) : ProfileObj :=
  { p with data := p.data.map (fun pt => (pt.1, (9 / 5 : ℚ) * pt.2 + 32)) }

/-- kiln-controller.py `add_temp_units`: returns the profile unchanged when a
"temp_units" marker is already present; otherwise sets `temp_units` to "c",
returns directly when the configured scale is "c", converts the data to
Celsius when the scale is "f", and (like the Python function, which falls
off its end) yields `none` for any other configured scale. -/
def add_temp_units (temp_scale : String) (p : ProfileObj) : Option ProfileObj :=
  if p.temp_units.isSome then some p
  else
    let p1 := { p with temp_units := some "c" }
    if temp_scale = "c" then some p1
    else if temp_scale = "f" then some (convert_to_c p1)
    else none

/-- The profile directory, modelled as an association list from file name to
stored profile object; `os.path.exists` is a successful lookup. -/
def fsLookup (fs : List (String × ProfileObj)) (k : String) : Option ProfileObj :=
  match fs with
  | [] => none
  | e :: rest => if e.1 = k then some e.2 else fsLookup rest k

/-- Writing a file: the new binding shadows any previous one, every other
file is unchanged. -/
def fsWrite (fs : List (String × ProfileObj)) (k : String) (v : ProfileObj) :
    List (String × ProfileObj) :=
  (k, v) :: fs

/-- kiln-controller.py `save_profile`: normalizes units via `add_temp_units`
(a Python `None` result would crash on the subsequent subscript, modelled as
an error), builds the file name from the profile's "name" field plus
".json", refuses to write (returning False) when `force` is false and the
file already exists, and otherwise writes the normalized profile and returns
True. -/
def save_profile (temp_scale : String) (p : ProfileObj) (force : Bool)
    (fs : List (String × ProfileObj)) :
    Except String (Bool × List (String × ProfileObj)) :=
  match add_temp_units temp_scale p with
  | none => .error "TypeError: profile is None"
  | some p1 =>
    let filename := p1.name ++ ".json"
    if ¬ force ∧ (fsLookup fs filename).isSome then .ok (false, fs)
    else .ok (true, fsWrite fs filename p1)

/-- A status snapshot as delivered to observers, modelled as the list of its
key/value fields. -/
def Snapshot := List (String × String)

/-- A registered observer: an identity and its `send` behaviour on a
snapshot, which either returns normally or raises. -/
structure Observer where
  ident : Nat
  send : Snapshot → Except String Unit

/-- Whether an `Except` computation returned normally. -/
def exceptOk {ε α : Type} : Except ε α → Bool
  | .ok _ => true
  | .error _ => false

/-- Modelled from the spec: `OvenWatcher.notify_all` lives in
`ovenWatcher.py`, which is not under src/. Spec §4.4: for each registered
observer invoke its `send(snapshot)` in isolation; a raised exception is
caught, logged, and that observer is removed from the registry; iteration
continues with the remaining observers. Returns the registry afterwards and
the identities that received the snapshot. -/
def notify_all (snap : Snapshot) : List Observer → List Observer × List Nat
  | [] => ([], [])
  | o :: rest =>
    match o.send snap with
    | .ok _ =>
      let r := notify_all snap rest
      (o :: r.1, o.ident :: r.2)
    | .error _ => notify_all snap rest

/-- lib/webSocket_observer.py `WebSocketObserver.send`: when the socket
object is present, forward the serialized data to it and let any socket
failure propagate to the caller; when it is `None`, log a warning and return
normally. The socket is modelled by its send behaviour on the data. -/
def WebSocketObserver.send (wsock : Option (Snapshot → Except String Unit))
    (data : Snapshot) : Except String Unit :=
  match wsock with
  | some sock => sock data
  | none => .ok ()

/-- The fields of `TelegramObserver` that `send` reads or writes. -/
structure TelegramState where
  enabled : Bool
  hasBot : Bool
  interval : ℚ
  last_sent : ℚ
deriving DecidableEq, Repr

/-- The data handed to `TelegramObserver.send`: either not a dict, or a dict
whose "state" field (defaulted to "IDLE") is recorded. -/
inductive TeleData where
  | nonDict
  | dict (state : String)
deriving DecidableEq, Repr

/-- What a call to `TelegramObserver.send` did. -/
inductive SendOutcome where
  | skippedDisabled
  | skippedNonDict
  | skippedIdle
  | skippedThrottle
  | sent
  | caughtError (msg : String)
deriving DecidableEq, Repr

/-- lib/telegram_observer.py `TelegramObserver.send`: returns immediately
when disabled or the bot is uninitialized; ignores non-dict data; skips IDLE
snapshots unless `telegram_send_when_idle` is configured; throttles calls
within `interval` of the last successful send; then formats and sends the
message inside a try block whose handler catches and logs any exception from
the bot. The bot's behaviour is the `botSend` parameter; the `Except` result
type records whether the call propagated an exception. -/
def TelegramObserver.send (s : TelegramState) (send_when_idle : Bool)
    (data : TeleData) (now : ℚ) (botSend : Except String Unit) :
    Except String (TelegramState × SendOutcome) :=
  if ¬ s.enabled ∨ ¬ s.hasBot then .ok (s, .skippedDisabled)
  else
    match data with
    | .nonDict => .ok (s, .skippedNonDict)
    | .dict st =>
      if st = "IDLE" ∧ ¬ send_when_idle then .ok (s, .skippedIdle)
      else if now - s.last_sent < s.interval then .ok (s, .skippedThrottle)
      else
        match botSend with
        | .ok _ => .ok ({ s with last_sent := now }, .sent)
        | .error e => .ok (s, .caughtError e)

end Kiln

namespace Kiln

/-- A malformed profile object never passes `Profile.parse`. -/
theorem parse_error_of_malformed (p : RawProfile) (hm : malformedProfile p = true) :
    ∃ e, Profile.parse p = .error e := by
  unfold malformedProfile at hm
  unfold Profile.parse
  by_cases ht : p.type_ = "profile"
  · cases hd : p.data with
    | none => simp [ht, hd]
    | some d =>
      rw [hd] at hm
      simp [ht] at hm
      rcases hm with hm | hm
      · simp [ht, hd, hm]
      · by_cases hlen : d.length < 2
        · simp [ht, hd, hlen]
        · simp [ht, hd, hlen, hm]
  · simp [ht]

/-- Converting a data list to Celsius and back to Fahrenheit is the
identity over exact rationals. -/
theorem map_c_then_f (d : List (ℚ × ℚ)) :
    (d.map (fun pt => (pt.1, (5 / 9 : ℚ) * (pt.2 - 32)))).map
        (fun pt => (pt.1, (9 / 5 : ℚ) * pt.2 + 32)) = d := by
  induction d with
  | nil => rfl
  | cons a rest ih =>
    simp only [List.map_cons, List.cons.injEq]
    exact ⟨Prod.ext rfl (by ring), ih⟩

/-- A configured scale of "c" or "f" makes `add_temp_units` total. -/
theorem add_temp_units_isSome (temp_scale : String) (p : ProfileObj)
    (h : temp_scale = "c" ∨ temp_scale = "f") :
    ∃ q, add_temp_units temp_scale p = some q := by
  unfold add_temp_units
  by_cases h1 : p.temp_units.isSome
  · exact ⟨p, by simp [h1]⟩
  · rcases h with h | h <;> simp [h1, h]

/-- `add_temp_units` never changes the "name" field. -/
theorem add_temp_units_name (temp_scale : String) (p : ProfileObj) (q : ProfileObj)
    (h : add_temp_units temp_scale p = some q) : q.name = p.name := by
  unfold add_temp_units at h
  by_cases h1 : p.temp_units.isSome
  · simp [h1] at h
    simp [← h]
  · by_cases h2 : temp_scale = "c"
    · simp [h1, h2] at h
      simp [← h]
    · by_cases h3 : temp_scale = "f"
      · simp [h1, h2, h3] at h
        simp [← h, convert_to_c]
      · simp [h1, h2, h3] at h

/-- C1: the pause command succeeds exactly when the oven is RUNNING, in which
case the oven moves to PAUSED; in every other state it reports failure to the
caller and leaves the oven unchanged. -/
theorem pause_succeeds_iff_running (o : Oven) :
    ((perform_pause_kiln o).1 = true ↔ o.state = .RUNNING) ∧
    (perform_pause_kiln o).2 =
      (if o.state = .RUNNING then { o with state := .PAUSED } else o) := by
  unfold perform_pause_kiln
  by_cases h : o.state = .RUNNING <;> simp [h]

/-- C4: the resume command succeeds exactly when the oven is PAUSED, in which
case the oven moves to RUNNING; in every other state it reports failure to
the caller and leaves the oven unchanged. -/
theorem resume_succeeds_iff_paused (o : Oven) :
    ((perform_resume_kiln o).1 = true ↔ o.state = .PAUSED) ∧
    (perform_resume_kiln o).2 =
      (if o.state = .PAUSED then { o with state := .RUNNING } else o) := by
  unfold perform_resume_kiln
  by_cases h : o.state = .PAUSED <;> simp [h]

/-- C3: the stop command always reports success; from RUNNING or PAUSED it
aborts the run (actuator off, profile cleared, oven IDLE), from any other
state it is a no-op; and invoking it twice leaves the oven exactly as one
invocation does, succeeding both times. -/
theorem stop_idempotent_success (o : Oven) :
    (perform_stop_kiln o).1 = true ∧
    (perform_stop_kiln o).2 =
      (if o.state = .RUNNING ∨ o.state = .PAUSED then o.abort_run else o) ∧
    ((o.state = .RUNNING ∨ o.state = .PAUSED) →
      (perform_stop_kiln o).2.state = .IDLE ∧
      (perform_stop_kiln o).2.heating = false) ∧
    perform_stop_kiln (perform_stop_kiln o).2 = (true, (perform_stop_kiln o).2) := by
  unfold perform_stop_kiln Oven.abort_run
  by_cases h : o.state = .RUNNING ∨ o.state = .PAUSED
  · rcases h with h | h <;> simp [h]
  · have h1 : ¬ o.state = .RUNNING := fun hc => h (Or.inl hc)
    have h2 : ¬ o.state = .PAUSED := fun hc => h (Or.inr hc)
    simp [h1, h2]

/-- Witness for C3 at a concrete RUNNING oven: discharges the RUNNING-or-PAUSED
hypothesis of the abort clause. -/
theorem stop_idempotent_success_witness :
    (perform_stop_kiln ⟨.RUNNING, true, some "cone6", 42⟩).1 = true ∧
    (perform_stop_kiln ⟨.RUNNING, true, some "cone6", 42⟩).2.state = .IDLE ∧
    (perform_stop_kiln ⟨.RUNNING, true, some "cone6", 42⟩).2.heating = false := by
  have h := stop_idempotent_success ⟨.RUNNING, true, some "cone6", 42⟩
  exact ⟨h.1, (h.2.2.1 (Or.inl rfl)).1, (h.2.2.1 (Or.inl rfl)).2⟩

/-- C2: starting a profile from any state other than IDLE returns failure,
invokes no run and leaves the oven unchanged; and a successful start implies
the oven was IDLE. -/
theorem start_requires_idle (o : Oven) (ident : String)
    (lookup : String → Option RawProfile) :
    (o.state ≠ .IDLE → perform_start_profile o ident lookup = ⟨.ok false, o, false⟩) ∧
    ((perform_start_profile o ident lookup).result = .ok true → o.state = .IDLE) := by
  by_cases h : o.state = .IDLE
  · exact ⟨fun hc => absurd h hc, fun _ => h⟩
  · constructor
    · intro _
      unfold perform_start_profile
      simp [h]
    · intro hr
      exfalso
      unfold perform_start_profile at hr
      simp [h] at hr

/-- Witness for C2 at a concrete RUNNING oven: discharges the not-IDLE
hypothesis with a concrete identifier and lookup. -/
theorem start_requires_idle_witness :
    perform_start_profile ⟨.RUNNING, true, none, 0⟩ "cone6" (fun _ => none)
      = ⟨.ok false, ⟨.RUNNING, true, none, 0⟩, false⟩ :=
  (start_requires_idle ⟨.RUNNING, true, none, 0⟩ "cone6" (fun _ => none)).1 (by decide)

/-- C5: when the identifier resolves to a loaded profile object that is
malformed (type not "profile", data missing, fewer than 2 points, or times
not strictly increasing), the start path rejects it and never invokes
`oven.run_profile`. -/
theorem malformed_profile_never_runs (o : Oven) (ident : String)
    (lookup : String → Option RawProfile) (p : RawProfile)
    (hl : lookup ident = some p) (hm : malformedProfile p = true) :
    (perform_start_profile o ident lookup).invokedRun = false ∧
    (perform_start_profile o ident lookup).result ≠ .ok true := by
  obtain ⟨e, he⟩ := parse_error_of_malformed p hm
  unfold perform_start_profile
  by_cases hs : o.state ≠ .IDLE
  · simp [hs]
  · by_cases hi : ident = ""
    · simp [hs, hi]
    · rw [if_neg hs, if_neg hi, hl]
      by_cases hv : ¬ (p.type_ = "profile" ∧ p.data.isSome)
      · simp [hv]
      · simp only [hv, if_neg, ite_false, he]
        simp

/-- Witness for C5 at a one-point profile (fewer than 2 points) offered to an
IDLE oven: discharges both hypotheses concretely. -/
theorem malformed_profile_never_runs_witness :
    (perform_start_profile ⟨.IDLE, false, none, 0⟩ "short"
        (fun _ => some ⟨"profile", "short", some [(0, 20)], none⟩)).invokedRun = false ∧
    (perform_start_profile ⟨.IDLE, false, none, 0⟩ "short"
        (fun _ => some ⟨"profile", "short", some [(0, 20)], none⟩)).result ≠ .ok true :=
  malformed_profile_never_runs ⟨.IDLE, false, none, 0⟩ "short"
    (fun _ => some ⟨"profile", "short", some [(0, 20)], none⟩)
    ⟨"profile", "short", some [(0, 20)], none⟩ rfl (by decide)

/-- C6: with configured scale "f" and no `temp_units` marker, storing a
profile converts every temperature by (F-32)*5/9, keeps every time offset,
and records the conversion by setting `temp_units` to "c". -/
theorem add_temp_units_f_converts (p : ProfileObj) (h : p.temp_units = none) :
    add_temp_units "f" p =
      some { p with temp_units := some "c",
                    data := p.data.map (fun pt => (pt.1, (5 / 9 : ℚ) * (pt.2 - 32))) } := by
  unfold add_temp_units convert_to_c
  simp [h]

/-- Witness for C6 at a two-point Fahrenheit profile with no marker:
32 F becomes 0 C and 212 F becomes 100 C, times unchanged. -/
theorem add_temp_units_f_converts_witness :
    add_temp_units "f" ⟨"glaze", [(0, 32), (60, 212)], none, "profile"⟩ =
      some ⟨"glaze", [((0 : ℚ), (0 : ℚ)), (60, 100)], some "c", "profile"⟩ := by
  rw [add_temp_units_f_converts ⟨"glaze", [(0, 32), (60, 212)], none, "profile"⟩ rfl]
  simp only [List.map_cons, List.map_nil, Option.some.injEq, ProfileObj.mk.injEq,
    List.cons.injEq, Prod.mk.injEq]
  norm_num

/-- C7: converting a profile to Celsius and then back to Fahrenheit returns
the original time/temperature pairs exactly (over rationals), and neither
conversion changes the name, the `temp_units` marker or the type field. -/
theorem convert_roundtrip (p : ProfileObj) :
    convert_to_f (convert_to_c p) = p ∧
    (convert_to_c p).name = p.name ∧ (convert_to_c p).temp_units = p.temp_units ∧
    (convert_to_c p).type_ = p.type_ ∧
    (convert_to_f p).name = p.name ∧ (convert_to_f p).temp_units = p.temp_units ∧
    (convert_to_f p).type_ = p.type_ := by
  refine ⟨?_, rfl, rfl, rfl, rfl, rfl, rfl⟩
  show convert_to_f (convert_to_c p) = p
  simp only [convert_to_c, convert_to_f]
  rw [map_c_then_f]

/-- C10: with a valid configured scale, `save_profile` with `force` false and
an existing `<name>.json` returns False leaving the directory unchanged; it
writes the normalized profile under `<name>.json` and returns True exactly
when the file is absent or `force` is true. -/
theorem save_profile_force_semantics (temp_scale : String) (p : ProfileObj)
    (force : Bool) (fs : List (String × ProfileObj))
    (hscale : temp_scale = "c" ∨ temp_scale = "f") :
    ((force = false ∧ (fsLookup fs (p.name ++ ".json")).isSome) →
      save_profile temp_scale p force fs = .ok (false, fs)) ∧
    ((force = true ∨ fsLookup fs (p.name ++ ".json") = none) →
      ∃ p1, add_temp_units temp_scale p = some p1 ∧ p1.name = p.name ∧
        save_profile temp_scale p force fs
          = .ok (true, fsWrite fs (p.name ++ ".json") p1)) ∧
    (∀ fs1, save_profile temp_scale p force fs = .ok (true, fs1) →
      force = true ∨ fsLookup fs (p.name ++ ".json") = none) := by
  obtain ⟨p1, hp1⟩ := add_temp_units_isSome temp_scale p hscale
  have hname := add_temp_units_name temp_scale p p1 hp1
  refine ⟨?_, ?_, ?_⟩
  · rintro ⟨hf, hex⟩
    simp only [save_profile, hp1, hname]
    rw [if_pos ⟨by simp [hf], hex⟩]
  · intro hcase
    refine ⟨p1, hp1, hname, ?_⟩
    simp only [save_profile, hp1, hname]
    rcases hcase with hf | hnone
    · rw [if_neg]
      rintro ⟨hnf, _⟩
      exact hnf hf
    · rw [if_neg]
      rintro ⟨_, hsome⟩
      rw [hnone] at hsome
      exact Bool.false_ne_true hsome
  · intro fs1 hok
    by_cases hcond : ¬ (force = true) ∧ (fsLookup fs (p.name ++ ".json")).isSome
    · exfalso
      simp only [save_profile, hp1, hname] at hok
      rw [if_pos hcond] at hok
      simp at hok
    · rcases Decidable.not_and_iff_or_not.mp hcond with hf | hsome
      · exact Or.inl (by simpa using hf)
      · exact Or.inr (Option.not_isSome_iff_eq_none.mp hsome)

/-- Witness for C10: saving a profile whose file already exists, without
force, under scale "c", returns False and leaves the directory as it was. -/
theorem save_profile_force_semantics_witness :
    save_profile "c" ⟨"dup", [(0, 0), (10, 100)], some "c", "profile"⟩ false
        [("dup.json", ⟨"dup", [(0, 0), (10, 100)], some "c", "profile"⟩)]
      = .ok (false, [("dup.json", ⟨"dup", [(0, 0), (10, 100)], some "c", "profile"⟩)]) :=
  (save_profile_force_semantics "c" ⟨"dup", [(0, 0), (10, 100)], some "c", "profile"⟩
      false [("dup.json", ⟨"dup", [(0, 0), (10, 100)], some "c", "profile"⟩)]
      (Or.inl rfl)).1 ⟨rfl, by decide⟩

/-- C8: `notify_all` keeps exactly the observers whose `send` returns
normally, removing every observer whose `send` raises, and every kept
observer receives the snapshot; and `WebSocketObserver.send` with a live
socket forwards to the socket, propagating its failures to the caller. -/
theorem notify_all_isolates (snap : Snapshot) (obs : List Observer) :
    (notify_all snap obs).1 = obs.filter (fun o => exceptOk (o.send snap)) ∧
    (notify_all snap obs).2
      = (obs.filter (fun o => exceptOk (o.send snap))).map Observer.ident ∧
    (∀ sock d, WebSocketObserver.send (some sock) d = sock d) := by
  have key : ∀ l : List Observer,
      notify_all snap l
        = (l.filter (fun o => exceptOk (o.send snap)),
           (l.filter (fun o => exceptOk (o.send snap))).map Observer.ident) := by
    intro l
    induction l with
    | nil => rfl
    | cons o rest ih =>
      unfold notify_all
      cases hs : o.send snap with
      | ok u => simp [List.filter_cons, exceptOk, hs, ih]
      | error e => simp [List.filter_cons, exceptOk, hs, ih]
  exact ⟨by rw [key obs], by rw [key obs], fun _ _ => rfl⟩

/-- C9: `TelegramObserver.send` always returns normally, and in particular:
a disabled or uninitialized bot is ignored, non-dict data is ignored, IDLE
snapshots are skipped when suppression is configured, calls within the
throttle interval of the last successful send are skipped, and an exception
from the bot's `send_message` is caught, leaving `last_sent` unchanged. -/
theorem telegram_send_never_raises (s : TelegramState) (swi : Bool)
    (data : TeleData) (now : ℚ) (botSend : Except String Unit) :
    exceptOk (TelegramObserver.send s swi data now botSend) = true ∧
    ((¬ s.enabled ∨ ¬ s.hasBot) →
      TelegramObserver.send s swi data now botSend = .ok (s, .skippedDisabled)) ∧
    (s.enabled → s.hasBot → data = .nonDict →
      TelegramObserver.send s swi data now botSend = .ok (s, .skippedNonDict)) ∧
    (∀ st, s.enabled → s.hasBot → data = .dict st → st = "IDLE" → swi = false →
      TelegramObserver.send s swi data now botSend = .ok (s, .skippedIdle)) ∧
    (∀ st, s.enabled → s.hasBot → data = .dict st → ¬ (st = "IDLE" ∧ ¬ swi) →
      now - s.last_sent < s.interval →
      TelegramObserver.send s swi data now botSend = .ok (s, .skippedThrottle)) ∧
    (∀ st e, s.enabled → s.hasBot → data = .dict st → ¬ (st = "IDLE" ∧ ¬ swi) →
      ¬ (now - s.last_sent < s.interval) → botSend = .error e →
      TelegramObserver.send s swi data now botSend = .ok (s, .caughtError e)) := by
  have hdict : ∀ st : String, ¬ (¬ s.enabled ∨ ¬ s.hasBot) →
      TelegramObserver.send s swi (.dict st) now botSend
        = if st = "IDLE" ∧ ¬ swi then Except.ok (s, SendOutcome.skippedIdle)
          else if now - s.last_sent < s.interval then
            Except.ok (s, SendOutcome.skippedThrottle)
          else
            match botSend with
            | .ok _ => Except.ok ({ s with last_sent := now }, SendOutcome.sent)
            | .error e => Except.ok (s, SendOutcome.caughtError e) := by
    intro st h
    unfold TelegramObserver.send
    rw [if_neg h]
  refine ⟨?_, ?_, ?_, ?_, ?_, ?_⟩
  · by_cases h1 : ¬ s.enabled ∨ ¬ s.hasBot
    · unfold TelegramObserver.send
      rw [if_pos h1]
      rfl
    · cases data with
      | nonDict =>
        unfold TelegramObserver.send
        rw [if_neg h1]
        rfl
      | dict st =>
        rw [hdict st h1]
        by_cases h2 : st = "IDLE" ∧ ¬ swi
        · rw [if_pos h2]
          rfl
        · rw [if_neg h2]
          by_cases h3 : now - s.last_sent < s.interval
          · rw [if_pos h3]
            rfl
          · rw [if_neg h3]
            cases botSend <;> rfl
  · intro h
    unfold TelegramObserver.send
    rw [if_pos h]
  · intro he hb hd
    subst hd
    unfold TelegramObserver.send
    rw [if_neg (fun hc => hc.elim (fun h => h he) (fun h => h hb))]
  · intro st he hb hd hidle hswi
    subst hd
    rw [hdict st (fun hc => hc.elim (fun h => h he) (fun h => h hb))]
    rw [if_pos ⟨hidle, by simp [hswi]⟩]
  · intro st he hb hd hni ht
    subst hd
    rw [hdict st (fun hc => hc.elim (fun h => h he) (fun h => h hb))]
    rw [if_neg hni, if_pos ht]
  · intro st e he hb hd hni ht hbot
    subst hd
    subst hbot
    rw [hdict st (fun hc => hc.elim (fun h => h he) (fun h => h hb))]
    rw [if_neg hni, if_neg ht]

/-- Witness for C9: a running-state snapshot sent past the throttle window
while the bot raises is caught, the call returns normally and `last_sent` is
left unchanged. -/
theorem telegram_send_never_raises_witness :
    exceptOk (TelegramObserver.send ⟨true, true, 30, 0⟩ true (.dict "RUNNING") 100
        (.error "socket down")) = true ∧
    TelegramObserver.send ⟨true, true, 30, 0⟩ true (.dict "RUNNING") 100
        (.error "socket down")
      = .ok (⟨true, true, 30, 0⟩, .caughtError "socket down") := by
  have h := telegram_send_never_raises ⟨true, true, 30, 0⟩ true (.dict "RUNNING") 100
    (.error "socket down")
  refine ⟨h.1, ?_⟩
  exact h.2.2.2.2.2 "RUNNING" "socket down" rfl rfl rfl (by simp) (by norm_num) rfl

end Kiln
